import Mathlib

/-!
Shallow embedding of the password-strength scorer in `password_checker.py`
(class `PasswordChecker`).  Python strings are modelled as Lean `String`
(a sequence of Unicode code points, as in Python 3); Python `int` as `Int`.
Every function below is a direct translation of the corresponding method.
-/

namespace PasswordChecker

/-- The `PasswordStrength` enum of the source (six strength levels). -/
inductive PasswordStrength where
  | VERY_WEAK
  | WEAK
  | FAIR
  | GOOD
  | STRONG
  | VERY_STRONG
deriving DecidableEq, BEq, Repr

/-- The `.value` string of each `PasswordStrength` enum member. -/
def PasswordStrength.value : PasswordStrength → String
  | .VERY_WEAK => "Very Weak"
  | .WEAK => "Weak"
  | .FAIR => "Fair"
  | .GOOD => "Good"
  | .STRONG => "Strong"
  | .VERY_STRONG => "Very Strong"

/-- The result dictionary built by `_create_result`.  The Python dict stores
`strength.value`; the embedding keeps the tier itself (the map `.value` above
is injective, so nothing is lost), together with the other three keys. -/
structure CheckResult where
  strength : PasswordStrength
  score : Int
  feedback : List String
  is_strong : Bool
deriving DecidableEq, Repr

/-- `self.common_passwords`: the set of common weak passwords fixed in
`__init__`.  Python uses a `set`; only membership is ever queried, so a list
with `contains` is an exact model. -/
def common_passwords : List String :=
  ["password", "123456", "123456789", "qwerty", "abc123",
   "password123", "admin", "letmein", "welcome", "monkey"]

/-- One character of Python `str.lower()`.  Python performs full Unicode case
mapping; every member of `common_passwords` is ASCII lowercase, and the ASCII
uppercase range modelled here is the part of the mapping those membership
tests can exercise for the inputs appearing in the claims. -/
def lowerChar (c : Char) : Char :=
  if 65 ≤ c.toNat ∧ c.toNat ≤ 90 then Char.ofNat (c.toNat + 32) else c

/-- `password.lower()`. -/
def pyLower (s : String) : String := String.mk (s.data.map lowerChar)

/-- The regex class `[a-z]` applied to one character. -/
def isLowerAscii (c : Char) : Bool := 97 ≤ c.toNat && c.toNat ≤ 122

/-- The regex class `[A-Z]` applied to one character. -/
def isUpperAscii (c : Char) : Bool := 65 ≤ c.toNat && c.toNat ≤ 90

/-- Start code points of the runs of ten consecutive decimal digits forming
the Unicode general category Nd.  On a Python 3 `str`, the regex class `\d`
matches exactly the characters of category Nd (ASCII `0-9`, Arabic-Indic
digits, Devanagari digits, fullwidth digits, and so on), not only ASCII. -/
def ndDigitRunStarts : List Nat :=
  [0x30, 0x660, 0x6F0, 0x7C0, 0x966, 0x9E6, 0xA66, 0xAE6, 0xB66, 0xBE6,
   0xC66, 0xCE6, 0xD66, 0xDE6, 0xE50, 0xED0, 0xF20, 0x1040, 0x1090, 0x17E0,
   0x1810, 0x1946, 0x19D0, 0x1A80, 0x1A90, 0x1B50, 0x1BB0, 0x1C40, 0x1C50,
   0xA620, 0xA8D0, 0xA900, 0xA9D0, 0xA9F0, 0xAA50, 0xABF0, 0xFF10,
   0x104A0, 0x10D30, 0x11066, 0x110F0, 0x11136, 0x111D0, 0x112F0, 0x11450,
   0x114D0, 0x11650, 0x116C0, 0x11730, 0x118E0, 0x11950, 0x11C50, 0x11D50,
   0x11DA0, 0x16A60, 0x16AC0, 0x16B50, 0x1D7CE, 0x1D7D8, 0x1D7E2, 0x1D7EC,
   0x1D7F6, 0x1E140, 0x1E2F0, 0x1E950, 0x1FBF0]

/-- The regex class `\d` (any Unicode decimal digit) applied to one
character. -/
def isReDigit (c : Char) : Bool :=
  ndDigitRunStarts.any (fun s => s ≤ c.toNat && c.toNat < s + 10)

/-- Code points of the special-character regex class
`[!@#$%^&*()_+\-=\[\]{}|;:,.<>?]` of the source, in the order written
there. -/
def special_character_codes : List Nat :=
  [33, 64, 35, 36, 37, 94, 38, 42, 40, 41, 95, 43, 45, 61, 91, 93,
   123, 125, 124, 59, 58, 44, 46, 60, 62, 63]

/-- The special-character regex class applied to one character. -/
def isSpecialChar (c : Char) : Bool := special_character_codes.contains c.toNat

/-- `_check_length`: 0 below 6 characters, 5 for 6 or 7, 10 for 8 to 11,
15 for 12 or more. -/
def check_length (password : String) : Int :=
  let length := password.length
  if length < 6 then 0
  else if length < 8 then 5
  else if length < 12 then 10
  else 15

/-- `_check_character_variety`: starts at 0 and adds 5 for each of the four
character classes present (a `re.search` succeeds iff some character of the
string is in the class). -/
def check_character_variety (password : String) : Int :=
  let score : Int := 0
  let score := if password.data.any isLowerAscii then score + 5 else score
  let score := if password.data.any isUpperAscii then score + 5 else score
  let score := if password.data.any isReDigit then score + 5 else score
  let score := if password.data.any isSpecialChar then score + 5 else score
  score

/-- The loop body of `_has_sequential_chars` over the character list: some
window of three consecutive characters ascends by exactly one code point at
each step. -/
def seqRun3 : List Char → Bool
  | a :: b :: c :: rest =>
      (b.toNat == a.toNat + 1 && c.toNat == a.toNat + 2) || seqRun3 (b :: c :: rest)
  | _ => false

/-- `_has_sequential_chars`. -/
def has_sequential_chars (password : String) : Bool := seqRun3 password.data

/-- The loop body of `_has_repeated_chars` over the character list: some
window of three consecutive characters is three copies of one character. -/
def repRun3 : List Char → Bool
  | a :: b :: c :: rest => (a == b && b == c) || repRun3 (b :: c :: rest)
  | _ => false

/-- `_has_repeated_chars`. -/
def has_repeated_chars (password : String) : Bool := repRun3 password.data

/-- `_check_patterns`: common password −10 (returning immediately), else
sequential run −5, else repeated run −5, else 0. -/
def check_patterns (password : String) : Int :=
  let password_lower := pyLower password
  if common_passwords.contains password_lower then -10
  else if has_sequential_chars password then -5
  else if has_repeated_chars password then -5
  else 0

/-- `_determine_strength`: the tier of a total score. -/
def determine_strength (score : Int) : PasswordStrength :=
  if score < 5 then .VERY_WEAK
  else if score < 10 then .WEAK
  else if score < 20 then .FAIR
  else if score < 30 then .GOOD
  else if score < 40 then .STRONG
  else .VERY_STRONG

/-- `_generate_feedback`: builds the feedback list by successive appends,
in the order of the source. -/
def generate_feedback (password : String) (strength : PasswordStrength) :
    List String :=
  let feedback : List String := []
  let length := password.length
  let feedback := feedback ++
    (if length < 8 then
      ["Password is too short (" ++ toString length ++
        " characters). Use at least 8 characters."]
    else if length < 12 then
      ["Consider using a longer password (" ++ toString length ++
        " characters). 12+ characters recommended."]
    else
      ["Good password length (" ++ toString length ++ " characters)."])
  let has_lower := password.data.any isLowerAscii
  let has_upper := password.data.any isUpperAscii
  let has_digits := password.data.any isReDigit
  let has_special := password.data.any isSpecialChar
  let feedback :=
    if !has_lower then feedback ++ ["Add lowercase letters (a-z)"] else feedback
  let feedback :=
    if !has_upper then feedback ++ ["Add uppercase letters (A-Z)"] else feedback
  let feedback :=
    if !has_digits then feedback ++ ["Add numbers (0-9)"] else feedback
  let feedback :=
    if !has_special then feedback ++ ["Add special characters (!@#$%^&*)"]
    else feedback
  let feedback :=
    if has_sequential_chars password then
      feedback ++ ["Avoid sequential characters (abc, 123)"]
    else feedback
  let feedback :=
    if has_repeated_chars password then
      feedback ++ ["Avoid repeated characters (aaa, 111)"]
    else feedback
  let feedback :=
    if [PasswordStrength.VERY_WEAK, PasswordStrength.WEAK].contains strength then
      feedback ++ ["Password is too weak. Consider using a password manager."]
    else if strength == PasswordStrength.FAIR then
      feedback ++ ["Password is acceptable but could be stronger."]
    else if [PasswordStrength.GOOD, PasswordStrength.STRONG,
        PasswordStrength.VERY_STRONG].contains strength then
      feedback ++ ["Great! This is a strong password."]
    else feedback
  feedback

/-- `_create_result`. -/
def create_result (strength : PasswordStrength) (score : Int)
    (feedback : List String) : CheckResult :=
  { strength := strength
    score := score
    feedback := feedback
    is_strong := [PasswordStrength.GOOD, PasswordStrength.STRONG,
      PasswordStrength.VERY_STRONG].contains strength }

/-- `check_password`: the entry point.  Python's `if not password` is the
emptiness test for a string argument. -/
def check_password (password : String) : CheckResult :=
  if password.isEmpty then
    create_result .VERY_WEAK 0 ["Password cannot be empty"]
  else
    let length_score := check_length password
    let char_variety_score := check_character_variety password
    let pattern_score := check_patterns password
    let total_score := length_score + char_variety_score + pattern_score
    let strength := determine_strength total_score
    let feedback := generate_feedback password strength
    create_result strength total_score feedback

/-- `check_length` with its let-binding reduced away. -/
theorem check_length_def (p : String) :
    check_length p =
      if p.length < 6 then 0
      else if p.length < 8 then 5
      else if p.length < 12 then 10
      else 15 := rfl

/-- `check_patterns` with its let-binding reduced away. -/
theorem check_patterns_def (p : String) :
    check_patterns p =
      if common_passwords.contains (pyLower p) then -10
      else if has_sequential_chars p then -5
      else if has_repeated_chars p then -5
      else 0 := rfl

/-- The length sub-score is one of the four bucket values. -/
theorem check_length_cases (p : String) :
    check_length p = 0 ∨ check_length p = 5 ∨ check_length p = 10 ∨
      check_length p = 15 := by
  unfold check_length
  by_cases h1 : p.length < 6 <;> by_cases h2 : p.length < 8 <;>
    by_cases h3 : p.length < 12 <;> simp [h1, h2, h3]

/-- The length sub-score lies in [0, 15]. -/
theorem check_length_bounds (p : String) :
    0 ≤ check_length p ∧ check_length p ≤ 15 := by
  rcases check_length_cases p with h | h | h | h <;> rw [h] <;> constructor <;>
    norm_num

/-- The variety sub-score lies in [0, 20]. -/
theorem check_character_variety_bounds (p : String) :
    0 ≤ check_character_variety p ∧ check_character_variety p ≤ 20 := by
  unfold check_character_variety
  split_ifs <;> norm_num

/-- The pattern sub-score is one of −10, −5 and 0. -/
theorem check_patterns_cases (p : String) :
    check_patterns p = -10 ∨ check_patterns p = -5 ∨ check_patterns p = 0 := by
  rw [check_patterns_def]
  split_ifs <;> norm_num

/-- The pattern sub-score lies in [−10, 0]. -/
theorem check_patterns_bounds (p : String) :
    -10 ≤ check_patterns p ∧ check_patterns p ≤ 0 := by
  rcases check_patterns_cases p with h | h | h <;> rw [h] <;> constructor <;>
    norm_num

/-- Field projections of `create_result`. -/
theorem create_result_score (st : PasswordStrength) (sc : Int)
    (fb : List String) : (create_result st sc fb).score = sc := rfl

/-- Field projections of `create_result`: the strength argument. -/
theorem create_result_strength (st : PasswordStrength) (sc : Int)
    (fb : List String) : (create_result st sc fb).strength = st := rfl

/-- Field projections of `create_result`: the feedback argument. -/
theorem create_result_feedback (st : PasswordStrength) (sc : Int)
    (fb : List String) : (create_result st sc fb).feedback = fb := rfl

/-- On a non-empty password `check_password` is `create_result` applied to the
tier of the total score, the total score, and the generated feedback. -/
theorem check_password_eq (s : String) (h : s.isEmpty = false) :
    check_password s =
      create_result
        (determine_strength
          (check_length s + check_character_variety s + check_patterns s))
        (check_length s + check_character_variety s + check_patterns s)
        (generate_feedback s
          (determine_strength
            (check_length s + check_character_variety s + check_patterns s))) := by
  unfold check_password
  rw [if_neg]
  simp [h]

/-- C5: `check_password` on the empty string returns score 0, tier Very Weak,
feedback exactly the one-element list with the emptiness message, and
`is_strong` false. -/
theorem check_password_empty :
    check_password "" =
      { strength := PasswordStrength.VERY_WEAK, score := 0,
        feedback := ["Password cannot be empty"], is_strong := false } := by
  rfl

/-- C1: for every string, `check_password` terminates with a score in the
closed interval [−10, 50] (termination and absence of exceptions are
expressed by totality of the definition). -/
theorem check_password_score_in_range (s : String) :
    -10 ≤ (check_password s).score ∧ (check_password s).score ≤ 50 := by
  by_cases h : s.isEmpty
  · unfold check_password
    rw [if_pos h, create_result_score]
    constructor <;> norm_num
  · rw [check_password_eq s (by simpa using h), create_result_score]
    have hl := check_length_bounds s
    have hv := check_character_variety_bounds s
    have hp := check_patterns_bounds s
    constructor <;> omega

/-- C4: the tier is a pure function of the total score, bucketed strictly by
upper bound: below 5 Very Weak, below 10 Weak, below 20 Fair, below 30 Good,
below 40 Strong, otherwise Very Strong. -/
theorem determine_strength_buckets (score : Int) :
    (score < 5 → determine_strength score = PasswordStrength.VERY_WEAK) ∧
    (5 ≤ score → score < 10 → determine_strength score = PasswordStrength.WEAK) ∧
    (10 ≤ score → score < 20 → determine_strength score = PasswordStrength.FAIR) ∧
    (20 ≤ score → score < 30 → determine_strength score = PasswordStrength.GOOD) ∧
    (30 ≤ score → score < 40 → determine_strength score = PasswordStrength.STRONG) ∧
    (40 ≤ score → determine_strength score = PasswordStrength.VERY_STRONG) := by
  unfold determine_strength
  refine ⟨fun h1 => ?_, fun h1 h2 => ?_, fun h1 h2 => ?_, fun h1 h2 => ?_,
    fun h1 h2 => ?_, fun h1 => ?_⟩ <;> split_ifs <;> first | rfl | omega

/-- Witness for C4 at the concrete score 7. -/
theorem determine_strength_buckets_witness :
    (5 : Int) ≤ 7 ∧ (7 : Int) < 10 ∧
      determine_strength 7 = PasswordStrength.WEAK :=
  ⟨by norm_num, by norm_num,
    (determine_strength_buckets 7).2.1 (by norm_num) (by norm_num)⟩

/-- C9: the length sub-score is monotone in password length, with the bucket
values 0 below 6 characters, 5 for 6 or 7, 10 for 8 to 11, and 15 from 12
on. -/
theorem check_length_monotone :
    (∀ p q : String, p.length ≤ q.length → check_length p ≤ check_length q) ∧
    (∀ p : String,
      (p.length < 6 → check_length p = 0) ∧
      (6 ≤ p.length → p.length < 8 → check_length p = 5) ∧
      (8 ≤ p.length → p.length < 12 → check_length p = 10) ∧
      (12 ≤ p.length → check_length p = 15)) := by
  constructor
  · intro p q h
    rw [check_length_def, check_length_def]
    split_ifs <;> omega
  · intro p
    refine ⟨fun h1 => ?_, fun h1 h2 => ?_, fun h1 h2 => ?_, fun h1 => ?_⟩ <;>
      rw [check_length_def] <;> split_ifs <;> first | rfl | omega

/-- Witness for C9 at the concrete passwords abc and abcdef. -/
theorem check_length_monotone_witness :
    ("abc" : String).length ≤ ("abcdef" : String).length ∧
      check_length "abc" ≤ check_length "abcdef" :=
  ⟨by decide, check_length_monotone.1 "abc" "abcdef" (by decide)⟩

/-- C6: only the first matching pattern check applies, in the order common
password (−10), sequential run (−5), repeated run (−5); in particular the
sequential and repeated penalties never both apply. -/
theorem check_patterns_priority (s : String) :
    (common_passwords.contains (pyLower s) = true → check_patterns s = -10) ∧
    (common_passwords.contains (pyLower s) = false →
      has_sequential_chars s = true → check_patterns s = -5) ∧
    (common_passwords.contains (pyLower s) = false →
      has_sequential_chars s = false → has_repeated_chars s = true →
      check_patterns s = -5) ∧
    (common_passwords.contains (pyLower s) = false →
      has_sequential_chars s = false → has_repeated_chars s = false →
      check_patterns s = 0) := by
  refine ⟨fun h1 => ?_, fun h1 h2 => ?_, fun h1 h2 h3 => ?_,
    fun h1 h2 h3 => ?_⟩
  · rw [check_patterns_def, if_pos h1]
  · rw [check_patterns_def, if_neg (by rw [h1]; decide), if_pos h2]
  · rw [check_patterns_def, if_neg (by rw [h1]; decide), if_neg (by rw [h2]; decide),
      if_pos h3]
  · rw [check_patterns_def, if_neg (by rw [h1]; decide), if_neg (by rw [h2]; decide),
      if_neg (by rw [h3]; decide)]

/-- Witness for C6 at the concrete password abc (not common, sequential). -/
theorem check_patterns_priority_witness :
    common_passwords.contains (pyLower "abc") = false ∧
      has_sequential_chars "abc" = true ∧ check_patterns "abc" = -5 :=
  ⟨by decide, by decide,
    (check_patterns_priority "abc").2.1 (by decide) (by decide)⟩

/-- The `is_strong` field of any `create_result` holds iff its strength
argument is Good, Strong or Very Strong. -/
theorem create_result_is_strong_iff (st : PasswordStrength) (sc : Int)
    (fb : List String) :
    (create_result st sc fb).is_strong = true ↔
      ((create_result st sc fb).strength = PasswordStrength.GOOD ∨
       (create_result st sc fb).strength = PasswordStrength.STRONG ∨
       (create_result st sc fb).strength = PasswordStrength.VERY_STRONG) := by
  cases st <;> simp [create_result] <;> decide

/-- C8: the result's `is_strong` flag holds iff the result's tier is Good,
Strong or Very Strong. -/
theorem check_password_is_strong_iff (s : String) :
    (check_password s).is_strong = true ↔
      ((check_password s).strength = PasswordStrength.GOOD ∨
       (check_password s).strength = PasswordStrength.STRONG ∨
       (check_password s).strength = PasswordStrength.VERY_STRONG) := by
  by_cases h : s.isEmpty
  · unfold check_password
    rw [if_pos h]
    exact create_result_is_strong_iff _ _ _
  · rw [check_password_eq s (by simpa using h)]
    exact create_result_is_strong_iff _ _ _

/-- No score below 40 maps to the Very Strong tier. -/
theorem determine_strength_ne_very_strong (score : Int) (h : score < 40) :
    determine_strength score ≠ PasswordStrength.VERY_STRONG := by
  unfold determine_strength
  split_ifs <;> simp

/-- C10: the total score never exceeds 35, so the Very Strong tier (which
needs a score of at least 40) is never returned. -/
theorem check_password_never_very_strong (s : String) :
    (check_password s).score ≤ 35 ∧
      (check_password s).strength ≠ PasswordStrength.VERY_STRONG := by
  by_cases h : s.isEmpty
  · unfold check_password
    rw [if_pos h, create_result_score, create_result_strength]
    constructor
    · norm_num
    · simp
  · rw [check_password_eq s (by simpa using h), create_result_score,
      create_result_strength]
    have hl := check_length_bounds s
    have hv := check_character_variety_bounds s
    have hp := check_patterns_bounds s
    constructor
    · omega
    · exact determine_strength_ne_very_strong _ (by omega)

/-- C2 counterexample: `abc123` is a member of the common-password set, so
`_check_patterns` short-circuits with the common-password penalty −10; the
sequential-run penalty −5 claimed for it is not the applied sub-score. -/
theorem abc123_pattern_counterexample :
    check_patterns "abc123" = -10 ∧ ¬ check_patterns "abc123" = -5 := by
  constructor
  · rfl
  · decide

/-- C2 amended: `abc123` receives the common-password penalty −10 (which
short-circuits the sequential check), so its total score is exactly 10 lower
than that of `xkd461`, a password of equal length and equal character variety
with no common, sequential or repeated pattern. -/
theorem abc123_common_penalty :
    check_patterns "abc123" = -10 ∧
    check_length "abc123" = check_length "xkd461" ∧
    check_character_variety "abc123" = check_character_variety "xkd461" ∧
    check_patterns "xkd461" = 0 ∧
    (check_password "abc123").score = (check_password "xkd461").score - 10 := by
  refine ⟨rfl, rfl, rfl, rfl, ?_⟩
  decide

/-- C3 counterexample: the Arabic-Indic digit three (code point 1635) is
outside every ASCII range, yet the variety sub-score of the one-character
string holding it is 5, not 0: the regex class for digits matches any Unicode
decimal digit, so this character does contribute to the digit class. -/
theorem unicode_digit_counterexample :
    check_character_variety (String.mk [Char.ofNat 1635]) = 5 ∧
    ¬ check_character_variety (String.mk [Char.ofNat 1635]) = 0 := by
  constructor
  · rfl
  · decide

/-- C3 amended: the variety sub-score counts the ASCII ranges a–z and A–Z,
the listed special-punctuation set, and — for the digit class — any Unicode
decimal digit (category Nd), not only ASCII 0–9.  A character outside all
four classes (such as an accented letter) contributes to none of them:
inserting it anywhere leaves the variety sub-score unchanged.  Totality of
the definition expresses that classification never raises on Unicode
input. -/
theorem unclassified_char_contributes_nothing (a b : String) (c : Char)
    (h1 : isLowerAscii c = false) (h2 : isUpperAscii c = false)
    (h3 : isReDigit c = false) (h4 : isSpecialChar c = false) :
    check_character_variety (a ++ String.mk [c] ++ b) =
      check_character_variety (a ++ b) := by
  unfold check_character_variety
  rw [show (a ++ String.mk [c] ++ b).data = a.data ++ [c] ++ b.data by
        rw [String.data_append, String.data_append],
      show (a ++ b).data = a.data ++ b.data from String.data_append a b]
  simp [List.any_append, h1, h2, h3, h4]

/-- Witness for the amended C3 at the accented letter with code point 225
inserted into the password a1. -/
theorem unclassified_char_witness :
    isLowerAscii (Char.ofNat 225) = false ∧
    isUpperAscii (Char.ofNat 225) = false ∧
    isReDigit (Char.ofNat 225) = false ∧
    isSpecialChar (Char.ofNat 225) = false ∧
    check_character_variety ("a" ++ String.mk [Char.ofNat 225] ++ "1") =
      check_character_variety ("a" ++ "1") :=
  ⟨by decide, by decide, by decide, by decide,
    unclassified_char_contributes_nothing "a" "1" (Char.ofNat 225)
      (by decide) (by decide) (by decide) (by decide)⟩

/-- The three-way length message of `_generate_feedback`, with the literal
character count interpolated. -/
def length_message (password : String) : String :=
  if password.length < 8 then
    "Password is too short (" ++ toString password.length ++
      " characters). Use at least 8 characters."
  else if password.length < 12 then
    "Consider using a longer password (" ++ toString password.length ++
      " characters). 12+ characters recommended."
  else
    "Good password length (" ++ toString password.length ++ " characters)."

/-- The closing tier-specific remark of `_generate_feedback`, as a total
function of the tier (the if/elif chain of the source covers all six
tiers). -/
def closing_remark : PasswordStrength → String
  | .VERY_WEAK => "Password is too weak. Consider using a password manager."
  | .WEAK => "Password is too weak. Consider using a password manager."
  | .FAIR => "Password is acceptable but could be stronger."
  | .GOOD => "Great! This is a strong password."
  | .STRONG => "Great! This is a strong password."
  | .VERY_STRONG => "Great! This is a strong password."

/-- A guarded append on a negated test commutes into an append of a guarded
list. -/
theorem if_append_skip (b : Bool) (fb x : List String) :
    (if !b then fb ++ x else fb) = fb ++ (if b then [] else x) := by
  cases b <;> simp

/-- A guarded append commutes into an append of a guarded list. -/
theorem if_append_keep (b : Bool) (fb x : List String) :
    (if b then fb ++ x else fb) = fb ++ (if b then x else []) := by
  cases b <;> simp

/-- The closing if/elif chain of `_generate_feedback` appends exactly the
tier remark. -/
theorem strength_chain (st : PasswordStrength) (fb : List String) :
    (if [PasswordStrength.VERY_WEAK, PasswordStrength.WEAK].contains st then
        fb ++ ["Password is too weak. Consider using a password manager."]
      else if st == PasswordStrength.FAIR then
        fb ++ ["Password is acceptable but could be stronger."]
      else if [PasswordStrength.GOOD, PasswordStrength.STRONG,
          PasswordStrength.VERY_STRONG].contains st then
        fb ++ ["Great! This is a strong password."]
      else fb) = fb ++ [closing_remark st] := by
  cases st <;> simp +decide [closing_remark]

/-- The guarded singleton lists of the length branch collapse to the length
message. -/
theorem length_message_singleton (p : String) :
    (if p.length < 8 then
      ["Password is too short (" ++ toString p.length ++
        " characters). Use at least 8 characters."]
    else if p.length < 12 then
      ["Consider using a longer password (" ++ toString p.length ++
        " characters). 12+ characters recommended."]
    else
      ["Good password length (" ++ toString p.length ++ " characters)."]) =
      [length_message p] := by
  unfold length_message
  split_ifs <;> rfl

/-- The feedback list decomposes into the length message, the add-class
messages in the fixed order, the two recomputed pattern warnings, and the
closing remark. -/
theorem generate_feedback_eq (p : String) (st : PasswordStrength) :
    generate_feedback p st =
      [length_message p]
      ++ (if p.data.any isLowerAscii then [] else ["Add lowercase letters (a-z)"])
      ++ (if p.data.any isUpperAscii then [] else ["Add uppercase letters (A-Z)"])
      ++ (if p.data.any isReDigit then [] else ["Add numbers (0-9)"])
      ++ (if p.data.any isSpecialChar then []
          else ["Add special characters (!@#$%^&*)"])
      ++ (if has_sequential_chars p then ["Avoid sequential characters (abc, 123)"]
          else [])
      ++ (if has_repeated_chars p then ["Avoid repeated characters (aaa, 111)"]
          else [])
      ++ [closing_remark st] := by
  simp only [generate_feedback, List.nil_append]
  rw [strength_chain, if_append_keep, if_append_keep, if_append_skip,
    if_append_skip, if_append_skip, if_append_skip, length_message_singleton]

/-- C7: for every non-empty input the feedback of `check_password` is, in
order: exactly one length message; one add message per absent character
class in the order lowercase, uppercase, digit, special; the sequential
warning if a sequential run occurs anywhere (recomputed, independent of the
penalty short-circuit); the repeated warning if a repeated run occurs; and
exactly one tier-specific closing remark. -/
theorem check_password_feedback_structure (s : String)
    (h : s.isEmpty = false) :
    (check_password s).feedback =
      [length_message s]
      ++ (if s.data.any isLowerAscii then [] else ["Add lowercase letters (a-z)"])
      ++ (if s.data.any isUpperAscii then [] else ["Add uppercase letters (A-Z)"])
      ++ (if s.data.any isReDigit then [] else ["Add numbers (0-9)"])
      ++ (if s.data.any isSpecialChar then []
          else ["Add special characters (!@#$%^&*)"])
      ++ (if has_sequential_chars s then ["Avoid sequential characters (abc, 123)"]
          else [])
      ++ (if has_repeated_chars s then ["Avoid repeated characters (aaa, 111)"]
          else [])
      ++ [closing_remark (determine_strength
            (check_length s + check_character_variety s + check_patterns s))] := by
  rw [check_password_eq s h, create_result_feedback]
  exact generate_feedback_eq s _

/-- Witness for C7 at the concrete password abc. -/
theorem check_password_feedback_witness :
    ("abc" : String).isEmpty = false ∧
    (check_password "abc").feedback =
      [length_message "abc"]
      ++ (if ("abc" : String).data.any isLowerAscii then []
          else ["Add lowercase letters (a-z)"])
      ++ (if ("abc" : String).data.any isUpperAscii then []
          else ["Add uppercase letters (A-Z)"])
      ++ (if ("abc" : String).data.any isReDigit then []
          else ["Add numbers (0-9)"])
      ++ (if ("abc" : String).data.any isSpecialChar then []
          else ["Add special characters (!@#$%^&*)"])
      ++ (if has_sequential_chars "abc" then
            ["Avoid sequential characters (abc, 123)"]
          else [])
      ++ (if has_repeated_chars "abc" then ["Avoid repeated characters (aaa, 111)"]
          else [])
      ++ [closing_remark (determine_strength
            (check_length "abc" + check_character_variety "abc" +
              check_patterns "abc"))] :=
  ⟨by decide, check_password_feedback_structure "abc" (by decide)⟩

end PasswordChecker
